import Mathlib

/-
Verification of the financial aggregation and reconciliation logic of the
GB-finance application, shallowly embedded in Lean 4.

Monetary amounts are modelled as exact integers (Int); calendar days as
integers (days since an arbitrary epoch).  Nullable database columns are
modelled as Option Int.  Query outcomes are modelled as Except values
(error message or row set), matching the supabase result destructuring in
the source.
-/

namespace GBFinance

/-- Row shape returned by the Dashboard summary queries:
`select('amount')` from sales and `select('grand_total')` from
expense_transactions.  The column is nullable, hence Option. -/
structure SaleRow where
  amount : Option Int
deriving DecidableEq

/-- Expense row as selected by the Dashboard summary query. -/
structure ExpenseRow where
  grand_total : Option Int
deriving DecidableEq

/-- Models the JavaScript `(x || 0)` guard applied to each monetary field
before summation: a null/undefined field contributes 0. -/
def orZero (v : Option Int) : Int := v.getD 0

/-- `salesData.reduce((sum, sale) => sum + (sale.amount || 0), 0)`
from Dashboard.tsx fetchFinancialData. -/
def totalSales (rows : List SaleRow) : Int :=
  rows.foldl (fun sum sale => sum + orZero sale.amount) 0

/-- `expensesData.reduce((sum, expense) => sum + (expense.grand_total || 0), 0)`
from Dashboard.tsx fetchFinancialData. -/
def totalExpenses (rows : List ExpenseRow) : Int :=
  rows.foldl (fun sum expense => sum + orZero expense.grand_total) 0

/-- `profit: totalSales - totalExpenses` from Dashboard.tsx. -/
def profit (sales : List SaleRow) (expenses : List ExpenseRow) : Int :=
  totalSales sales - totalExpenses expenses

/-- The summary object built by the Dashboard callers. -/
structure FinancialSummary where
  totalSales : Int
  totalExpenses : Int
  profit : Int
deriving DecidableEq

/-- Dashboard.tsx fetchFinancialData: each query result is destructured as
data plus error; on `salesError` or `expensesError` the function returns
early and no summary is produced. -/
def fetchFinancialData (salesRes : Except String (List SaleRow))
    (expensesRes : Except String (List ExpenseRow)) : Option FinancialSummary :=
  match salesRes with
  | Except.error _ => none
  | Except.ok salesData =>
    match expensesRes with
    | Except.error _ => none
    | Except.ok expensesData =>
      some { totalSales := totalSales salesData
             totalExpenses := totalExpenses expensesData
             profit := totalSales salesData - totalExpenses expensesData }

/-- The part_002 Dashboard variant of fetchFinancialData: it destructures
only `data` (dropping the error), so an errored query yields a null row
set, and `(salesData || [])` / `(expensesData || [])` substitute the empty
list before reducing.  A summary is always produced. -/
def fetchFinancialDataVariant (salesData : Option (List SaleRow))
    (expensesData : Option (List ExpenseRow)) : Option FinancialSummary :=
  some { totalSales := totalSales (salesData.getD [])
         totalExpenses := totalExpenses (expensesData.getD [])
         profit := totalSales (salesData.getD []) - totalExpenses (expensesData.getD []) }

/-- Folding addition of a projected field equals the initial accumulator
plus the sum of the projections. -/
theorem foldl_add_eq {α : Type} (f : α → Int) :
    ∀ (l : List α) (a : Int),
      l.foldl (fun acc x => acc + f x) a = a + (l.map f).sum := by
  intro l
  induction l with
  | nil => intro a; simp
  | cons x xs ih =>
      intro a
      rw [List.foldl_cons, ih, List.map_cons, List.sum_cons]
      ring

theorem totalSales_eq_sum (rows : List SaleRow) :
    totalSales rows = (rows.map (fun r => orZero r.amount)).sum := by
  simpa using foldl_add_eq (fun r : SaleRow => orZero r.amount) rows 0

theorem totalExpenses_eq_sum (rows : List ExpenseRow) :
    totalExpenses rows = (rows.map (fun r => orZero r.grand_total)).sum := by
  simpa using foldl_add_eq (fun r : ExpenseRow => orZero r.grand_total) rows 0

/-- C6: totalAmount sums the amount field over sale rows (and grand_total
over expense rows), returns 0 on the empty list, profit of two empty lists
is 0, profit is always the difference of the two totals, and it can be
negative (it is never clamped). -/
theorem totals_and_profit_spec :
    totalSales [] = 0 ∧ totalExpenses [] = 0 ∧ profit [] [] = 0
    ∧ (∀ rows : List SaleRow, totalSales rows = (rows.map (fun r => orZero r.amount)).sum)
    ∧ (∀ rows : List ExpenseRow, totalExpenses rows = (rows.map (fun r => orZero r.grand_total)).sum)
    ∧ (∀ (s : List SaleRow) (e : List ExpenseRow), profit s e = totalSales s - totalExpenses e)
    ∧ (∃ (s : List SaleRow) (e : List ExpenseRow), profit s e < 0) := by
  refine ⟨rfl, rfl, rfl, totalSales_eq_sum, totalExpenses_eq_sum, fun s e => rfl, ?_⟩
  exact ⟨[], [⟨some 5⟩], by decide⟩

/-- C9: totalAmount over sale rows is invariant under permutation of the
input list. -/
theorem totalSales_perm (l₁ l₂ : List SaleRow) (h : l₁.Perm l₂) :
    totalSales l₁ = totalSales l₂ := by
  rw [totalSales_eq_sum, totalSales_eq_sum]
  exact ((h.map (fun r => orZero r.amount)).sum_eq)

/-- Witness for C9 at a concrete two-element permutation. -/
theorem totalSales_perm_witness :
    totalSales [⟨some 1⟩, ⟨some 2⟩] = totalSales [⟨some 2⟩, ⟨some 1⟩] :=
  totalSales_perm [⟨some 1⟩, ⟨some 2⟩] [⟨some 2⟩, ⟨some 1⟩] (by decide)

/-- C10: a row whose monetary field is null contributes nothing to the
total: removing such a row (anywhere in the list) leaves the sale total
and the expense total unchanged, so the sum is well defined on rows with
missing fields. -/
theorem null_amount_contributes_nothing
    (pre post : List SaleRow) (r : SaleRow)
    (epre epost : List ExpenseRow) (er : ExpenseRow)
    (hr : r.amount = none) (her : er.grand_total = none) :
    totalSales (pre ++ r :: post) = totalSales (pre ++ post)
    ∧ totalExpenses (epre ++ er :: epost) = totalExpenses (epre ++ epost) := by
  constructor
  · rw [totalSales_eq_sum, totalSales_eq_sum]
    simp [hr, orZero]
  · rw [totalExpenses_eq_sum, totalExpenses_eq_sum]
    simp [her, orZero]

/-- Witness for C10: dropping a null-amount row between two real rows
leaves the totals unchanged. -/
theorem null_amount_contributes_nothing_witness :
    totalSales [⟨some 3⟩, ⟨none⟩, ⟨some 4⟩] = totalSales [⟨some 3⟩, ⟨some 4⟩]
    ∧ totalExpenses [⟨none⟩] = totalExpenses [] :=
  null_amount_contributes_nothing [⟨some 3⟩] [⟨some 4⟩] ⟨none⟩ [] [] ⟨none⟩ rfl rfl

/-- Sale row as selected by the Reports monthly summary query:
`select('amount, payment_type')`. -/
structure MonthlySale where
  amount : Int
  payment_type : String
deriving DecidableEq

/-- Expense row as selected by the Reports monthly summary query:
`select('grand_total, payment_mode')`. -/
structure MonthlyExpense where
  grand_total : Int
  payment_mode : String
deriving DecidableEq

/-- `salesDataForMonth.filter(s => s.payment_type === 'Cash').reduce((sum, s) => sum + s.amount, 0)`
from the Reports fetchReports. -/
def monthlyCashSales (sales : List MonthlySale) : Int :=
  (sales.filter (fun s => s.payment_type == "Cash")).foldl
    (fun sum s => sum + s.amount) 0

/-- `salesDataForMonth.filter(s => s.payment_type === 'Gpay').reduce(...)`
from the Reports fetchReports. -/
def monthlyGpaySales (sales : List MonthlySale) : Int :=
  (sales.filter (fun s => s.payment_type == "Gpay")).foldl
    (fun sum s => sum + s.amount) 0

/-- `expensesDataForMonth.reduce((sum, e) => sum + e.grand_total, 0)`. -/
def monthlyTotalExpenses (expenses : List MonthlyExpense) : Int :=
  expenses.foldl (fun sum e => sum + e.grand_total) 0

/-- `expensesDataForMonth.filter(e => e.payment_mode === 'Cash').reduce(...)`. -/
def monthlyCashExpenses (expenses : List MonthlyExpense) : Int :=
  (expenses.filter (fun e => e.payment_mode == "Cash")).foldl
    (fun sum e => sum + e.grand_total) 0

/-- `expensesDataForMonth.filter(e => e.payment_mode === 'Gpay').reduce(...)`. -/
def monthlyGpayExpenses (expenses : List MonthlyExpense) : Int :=
  (expenses.filter (fun e => e.payment_mode == "Gpay")).foldl
    (fun sum e => sum + e.grand_total) 0

/-- `cashInHand: monthlyCashSales - monthlyCashExpenses` from fetchReports. -/
def cashInHand (sales : List MonthlySale) (expenses : List MonthlyExpense) : Int :=
  monthlyCashSales sales - monthlyCashExpenses expenses

/-- `bankBalance: monthlyGpaySales - monthlyGpayExpenses` from fetchReports. -/
def bankBalance (sales : List MonthlySale) (expenses : List MonthlyExpense) : Int :=
  monthlyGpaySales sales - monthlyGpayExpenses expenses

/-- Sum of the amount field over all monthly sale rows, the sales half of
the profit formula used by the Dashboard (totalAmount over sales). -/
def allMonthlySales (sales : List MonthlySale) : Int :=
  sales.foldl (fun sum s => sum + s.amount) 0

/-- `profit(sales, expenses) = totalAmount(sales) - totalAmount(expenses)`
applied to the rows seen by the reconciliation. -/
def monthProfit (sales : List MonthlySale) (expenses : List MonthlyExpense) : Int :=
  allMonthlySales sales - monthlyTotalExpenses expenses

theorem monthlyCashSales_eq (sales : List MonthlySale) :
    monthlyCashSales sales
      = ((sales.filter (fun s => s.payment_type == "Cash")).map (fun s => s.amount)).sum := by
  simpa [monthlyCashSales] using
    foldl_add_eq (fun s : MonthlySale => s.amount)
      (sales.filter (fun s => s.payment_type == "Cash")) 0

theorem monthlyGpaySales_eq (sales : List MonthlySale) :
    monthlyGpaySales sales
      = ((sales.filter (fun s => s.payment_type == "Gpay")).map (fun s => s.amount)).sum := by
  simpa [monthlyGpaySales] using
    foldl_add_eq (fun s : MonthlySale => s.amount)
      (sales.filter (fun s => s.payment_type == "Gpay")) 0

theorem monthlyTotalExpenses_eq (expenses : List MonthlyExpense) :
    monthlyTotalExpenses expenses = (expenses.map (fun e => e.grand_total)).sum := by
  simpa [monthlyTotalExpenses] using
    foldl_add_eq (fun e : MonthlyExpense => e.grand_total) expenses 0

theorem monthlyCashExpenses_eq (expenses : List MonthlyExpense) :
    monthlyCashExpenses expenses
      = ((expenses.filter (fun e => e.payment_mode == "Cash")).map (fun e => e.grand_total)).sum := by
  simpa [monthlyCashExpenses] using
    foldl_add_eq (fun e : MonthlyExpense => e.grand_total)
      (expenses.filter (fun e => e.payment_mode == "Cash")) 0

theorem monthlyGpayExpenses_eq (expenses : List MonthlyExpense) :
    monthlyGpayExpenses expenses
      = ((expenses.filter (fun e => e.payment_mode == "Gpay")).map (fun e => e.grand_total)).sum := by
  simpa [monthlyGpayExpenses] using
    foldl_add_eq (fun e : MonthlyExpense => e.grand_total)
      (expenses.filter (fun e => e.payment_mode == "Gpay")) 0

theorem allMonthlySales_eq (sales : List MonthlySale) :
    allMonthlySales sales = (sales.map (fun s => s.amount)).sum := by
  simpa [allMonthlySales] using
    foldl_add_eq (fun s : MonthlySale => s.amount) sales 0

/-- Summing a projection over two disjoint, jointly exhaustive filters of a
list recovers the sum over the whole list. -/
theorem filter_partition_sum {α : Type} (p q : α → Bool) (f : α → Int) :
    ∀ l : List α,
      (∀ x ∈ l, (p x = true ∧ q x = false) ∨ (p x = false ∧ q x = true)) →
      ((l.filter p).map f).sum + ((l.filter q).map f).sum = (l.map f).sum := by
  intro l
  induction l with
  | nil => intro _; simp
  | cons x xs ih =>
      intro h
      have hx := h x (List.mem_cons_self x xs)
      have hxs : ∀ y ∈ xs, (p y = true ∧ q y = false) ∨ (p y = false ∧ q y = true) :=
        fun y hy => h y (List.mem_cons_of_mem x hy)
      rcases hx with ⟨h1, h2⟩ | ⟨h1, h2⟩
      · have h2' : ¬ (q x = true) := by simp [h2]
        rw [List.filter_cons, List.filter_cons, if_pos h1, if_neg h2',
          List.map_cons, List.sum_cons, List.map_cons, List.sum_cons, ← ih hxs]
        ring
      · have h1' : ¬ (p x = true) := by simp [h1]
        rw [List.filter_cons, List.filter_cons, if_neg h1', if_pos h2,
          List.map_cons, List.sum_cons, List.map_cons, List.sum_cons, ← ih hxs]
        ring

/-- C1 counterexample: a sale whose payment method is "Card" is not counted
in the bank bucket (the claim says every non-Cash record is). -/
theorem card_sale_missing_from_bank_bucket :
    bankBalance [⟨100, "Card"⟩] [] = 0 ∧ ¬ bankBalance [⟨100, "Card"⟩] [] = 100 := by
  decide

/-- C1 amended: cashInHand is the sum of Cash sales minus the sum of Cash
expenses, bankBalance is the same formula over records whose payment method
is exactly "Gpay", and a record with any other payment method (for example
"Card", "Bank Transfer", "Cheque", "Other") is counted in neither bucket. -/
theorem reconcile_cash_gpay_partition
    (sales : List MonthlySale) (expenses : List MonthlyExpense) :
    cashInHand sales expenses
      = ((sales.filter (fun s => s.payment_type == "Cash")).map (fun s => s.amount)).sum
        - ((expenses.filter (fun e => e.payment_mode == "Cash")).map (fun e => e.grand_total)).sum
    ∧ bankBalance sales expenses
      = ((sales.filter (fun s => s.payment_type == "Gpay")).map (fun s => s.amount)).sum
        - ((expenses.filter (fun e => e.payment_mode == "Gpay")).map (fun e => e.grand_total)).sum
    ∧ (∀ s : MonthlySale, s.payment_type ≠ "Cash" → s.payment_type ≠ "Gpay" →
        cashInHand (s :: sales) expenses = cashInHand sales expenses
        ∧ bankBalance (s :: sales) expenses = bankBalance sales expenses)
    ∧ (∀ e : MonthlyExpense, e.payment_mode ≠ "Cash" → e.payment_mode ≠ "Gpay" →
        cashInHand sales (e :: expenses) = cashInHand sales expenses
        ∧ bankBalance sales (e :: expenses) = bankBalance sales expenses) := by
  refine ⟨?_, ?_, ?_, ?_⟩
  · rw [cashInHand, monthlyCashSales_eq, monthlyCashExpenses_eq]
  · rw [bankBalance, monthlyGpaySales_eq, monthlyGpayExpenses_eq]
  · intro s h1 h2
    have hc : ¬ ((s.payment_type == "Cash") = true) := by
      simp [beq_eq_false_iff_ne.mpr h1]
    have hg : ¬ ((s.payment_type == "Gpay") = true) := by
      simp [beq_eq_false_iff_ne.mpr h2]
    constructor
    · rw [cashInHand, cashInHand, monthlyCashSales, monthlyCashSales,
        List.filter_cons, if_neg hc]
    · rw [bankBalance, bankBalance, monthlyGpaySales, monthlyGpaySales,
        List.filter_cons, if_neg hg]
  · intro e h1 h2
    have hc : ¬ ((e.payment_mode == "Cash") = true) := by
      simp [beq_eq_false_iff_ne.mpr h1]
    have hg : ¬ ((e.payment_mode == "Gpay") = true) := by
      simp [beq_eq_false_iff_ne.mpr h2]
    constructor
    · rw [cashInHand, cashInHand, monthlyCashExpenses, monthlyCashExpenses,
        List.filter_cons, if_neg hc]
    · rw [bankBalance, bankBalance, monthlyGpayExpenses, monthlyGpayExpenses,
        List.filter_cons, if_neg hg]

/-- Witness for the amended C1: adding a "Card" sale changes neither bucket. -/
theorem reconcile_cash_gpay_partition_witness :
    cashInHand [⟨100, "Card"⟩] [] = cashInHand [] []
    ∧ bankBalance [⟨100, "Card"⟩] [] = bankBalance [] [] :=
  (reconcile_cash_gpay_partition [] []).2.2.1 ⟨100, "Card"⟩ (by decide) (by decide)

/-- C2 counterexample: with a single "Card" sale of 100 the two buckets sum
to 0 while the profit over the same rows is 100, so the reconciliation does
not equal the profit on all recognized payment methods. -/
theorem reconcile_card_not_profit :
    cashInHand [⟨100, "Card"⟩] [] + bankBalance [⟨100, "Card"⟩] []
      ≠ monthProfit [⟨100, "Card"⟩] [] := by
  decide

/-- C2 amended: whenever every sale's payment type and every expense's
payment mode is "Cash" or "Gpay", cashInHand plus bankBalance equals the
profit over the same rows (no double-counting, no omission); records with
other recognized payment methods are omitted from both buckets. -/
theorem reconcile_sums_to_profit
    (sales : List MonthlySale) (expenses : List MonthlyExpense)
    (hs : ∀ s ∈ sales, s.payment_type = "Cash" ∨ s.payment_type = "Gpay")
    (he : ∀ e ∈ expenses, e.payment_mode = "Cash" ∨ e.payment_mode = "Gpay") :
    cashInHand sales expenses + bankBalance sales expenses
      = monthProfit sales expenses := by
  have hsales : monthlyCashSales sales + monthlyGpaySales sales = allMonthlySales sales := by
    rw [monthlyCashSales_eq, monthlyGpaySales_eq, allMonthlySales_eq]
    refine filter_partition_sum _ _ _ sales ?_
    intro x hx
    rcases hs x hx with h | h
    · exact Or.inl ⟨by rw [h]; decide, by rw [h]; decide⟩
    · exact Or.inr ⟨by rw [h]; decide, by rw [h]; decide⟩
  have hexp : monthlyCashExpenses expenses + monthlyGpayExpenses expenses
      = monthlyTotalExpenses expenses := by
    rw [monthlyCashExpenses_eq, monthlyGpayExpenses_eq, monthlyTotalExpenses_eq]
    refine filter_partition_sum _ _ _ expenses ?_
    intro x hx
    rcases he x hx with h | h
    · exact Or.inl ⟨by rw [h]; decide, by rw [h]; decide⟩
    · exact Or.inr ⟨by rw [h]; decide, by rw [h]; decide⟩
  rw [cashInHand, bankBalance, monthProfit]
  omega

/-- Witness for the amended C2 on the spec's scenario rows. -/
theorem reconcile_sums_to_profit_witness :
    cashInHand [⟨500, "Cash"⟩, ⟨1000, "Gpay"⟩] [⟨200, "Cash"⟩]
      + bankBalance [⟨500, "Cash"⟩, ⟨1000, "Gpay"⟩] [⟨200, "Cash"⟩]
      = monthProfit [⟨500, "Cash"⟩, ⟨1000, "Gpay"⟩] [⟨200, "Cash"⟩] :=
  reconcile_sums_to_profit _ _ (by decide) (by decide)

/-- Child row of an expense transaction as stored in expense_items. -/
structure ExpenseItemRow where
  transaction_id : String
  item_name : String
  unit : Int
  price_per_unit : Int
  total : Int
deriving DecidableEq

/-- Parent expense transaction row with its stored aggregate. -/
structure ExpenseTransactionRow where
  id : String
  grand_total : Int
deriving DecidableEq

/-- The unified transaction built for the Reports table. -/
structure UnifiedExpense where
  id : String
  grand_total : Int
  items : List ExpenseItemRow
  amount : Int
deriving DecidableEq

/-- The Reports table mapping
`{ ...t, items: itemsByTransactionId[t.id] || [], amount: t.grand_total }`:
the displayed amount is copied from the stored grand_total. -/
def toUnifiedExpense (t : ExpenseTransactionRow)
    (itemsByTransactionId : String → List ExpenseItemRow) : UnifiedExpense :=
  { id := t.id
    grand_total := t.grand_total
    items := itemsByTransactionId t.id
    amount := t.grand_total }

/-- Modelled from the spec: `recomputeGrandTotal(items)` is the sum of each
item's line total recomputed as unit times price per unit.  This is the
recomputation the spec says the engine performs; it is stated here only to
compare against what the code actually displays. -/
def specRecomputeGrandTotal (items : List ExpenseItemRow) : Int :=
  (items.map (fun i => i.unit * i.price_per_unit)).sum

/-- C5 counterexample: a transaction whose stored grand_total is 999 while
its only fetched item has unit 2 and price 50 is displayed as 999, not as
the recomputed 100, even though both the aggregate and the source fields
were fetched. -/
theorem displayed_amount_not_recomputed :
    (toUnifiedExpense ⟨"t1", 999⟩ (fun _ => [⟨"t1", "pen", 2, 50, 100⟩])).amount
      ≠ specRecomputeGrandTotal
          (toUnifiedExpense ⟨"t1", 999⟩ (fun _ => [⟨"t1", "pen", 2, 50, 100⟩])).items := by
  decide

/-- C5 amended: the displayed expense total is always the stored
grand_total: it does not depend on the fetched expense_items at all, and
the monthly expense totals likewise sum the stored grand_total fields. -/
theorem displayed_amount_is_stored_grand_total
    (t : ExpenseTransactionRow) (f g : String → List ExpenseItemRow) :
    (toUnifiedExpense t f).amount = t.grand_total
    ∧ (toUnifiedExpense t f).amount = (toUnifiedExpense t g).amount
    ∧ (∀ expenses : List MonthlyExpense,
        monthlyTotalExpenses expenses = (expenses.map (fun e => e.grand_total)).sum) :=
  ⟨rfl, rfl, monthlyTotalExpenses_eq⟩

/-- C4 counterexample: the part_002 Dashboard variant still produces a
summary when the sales query errors: it aggregates over the empty fallback
and reports totalSales 0 and a profit computed from the surviving expense
rows, instead of skipping aggregation. -/
theorem variant_aggregates_on_error :
    fetchFinancialDataVariant none (some [⟨some 5⟩]) = some ⟨0, 5, -5⟩
    ∧ fetchFinancialDataVariant none (some [⟨some 5⟩]) ≠ none := by
  decide

/-- C4 amended: in Dashboard.tsx fetchFinancialData an error outcome of the
sales or the expenses query yields no summary at all, while the part_002
variant always produces a summary, aggregating over the empty fallback row
set when a query errored. -/
theorem error_skips_aggregation
    (msg : String) (salesRes : Except String (List SaleRow))
    (expensesRes : Except String (List ExpenseRow))
    (salesData : Option (List SaleRow)) (expensesData : Option (List ExpenseRow)) :
    fetchFinancialData (Except.error msg) expensesRes = none
    ∧ fetchFinancialData salesRes (Except.error msg) = none
    ∧ fetchFinancialDataVariant salesData expensesData
        = some ⟨totalSales (salesData.getD []), totalExpenses (expensesData.getD []),
            totalSales (salesData.getD []) - totalExpenses (expensesData.getD [])⟩ := by
  refine ⟨rfl, ?_, rfl⟩
  cases salesRes with
  | error e => rfl
  | ok d => rfl

/-- Witness for the amended C4 at concrete query outcomes. -/
theorem error_skips_aggregation_witness :
    fetchFinancialData (Except.error "boom") (Except.ok [⟨some 5⟩]) = none
    ∧ fetchFinancialData (Except.ok [⟨some 5⟩]) (Except.error "boom") = none
    ∧ fetchFinancialDataVariant (some [⟨some 5⟩]) none = some ⟨5, 0, 5⟩ := by
  have h := error_skips_aggregation "boom" (Except.ok [⟨some 5⟩]) (Except.ok [⟨some 5⟩])
    (some [⟨some 5⟩]) none
  exact ⟨h.1, h.2.1, by rw [h.2.2]; decide⟩

/-- `if (unit > 0 && price_per_unit > 0) total = unit * price_per_unit
else total = 0`: the total-sync effect shared verbatim by the AddExpense
and EditExpense forms. -/
def syncLineTotal (unit price_per_unit : Int) : Int :=
  if 0 < unit ∧ 0 < price_per_unit then unit * price_per_unit else 0

/-- The form state of one expense line item; the total field is read-only
in the UI and only ever written by the sync effect. -/
structure ItemForm where
  item_name : String
  unit : Int
  price_per_unit : Int
  total : Int
deriving DecidableEq

/-- Editing the unit field fires the watch effect, which re-derives total
from the current unit and price-per-unit. -/
def setUnit (f : ItemForm) (u : Int) : ItemForm :=
  { f with unit := u, total := syncLineTotal u f.price_per_unit }

/-- Editing the price-per-unit field fires the watch effect likewise. -/
def setPricePerUnit (f : ItemForm) (p : Int) : ItemForm :=
  { f with price_per_unit := p, total := syncLineTotal f.unit p }

/-- C7: for positive inputs the synced line total is exactly unit times
price per unit, and after any sequence of unit/price edits ending in
positive values the form's total field (the value persisted on submit)
equals the product of the latest inputs, on both edit orders. -/
theorem line_total_synced (u p : Int) (hu : 0 < u) (hp : 0 < p) :
    syncLineTotal u p = u * p
    ∧ (∀ f : ItemForm, (setUnit (setPricePerUnit f p) u).total = u * p)
    ∧ (∀ f : ItemForm, (setPricePerUnit (setUnit f u) p).total = u * p)
    ∧ (∀ f : ItemForm, (setUnit f u).total = syncLineTotal u f.price_per_unit)
    ∧ (∀ f : ItemForm, (setPricePerUnit f p).total = syncLineTotal f.unit p) := by
  refine ⟨if_pos ⟨hu, hp⟩, ?_, ?_, fun f => rfl, fun f => rfl⟩
  · intro f
    show syncLineTotal u p = u * p
    exact if_pos ⟨hu, hp⟩
  · intro f
    show syncLineTotal u p = u * p
    exact if_pos ⟨hu, hp⟩

/-- Witness for C7 on the spec's scenario item (unit 3, price 50). -/
theorem line_total_synced_witness :
    syncLineTotal 3 50 = 3 * 50
    ∧ (setPricePerUnit (setUnit ⟨"pen", 0, 0, 0⟩ 3) 50).total = 3 * 50 :=
  ⟨(line_total_synced 3 50 (by decide) (by decide)).1,
   (line_total_synced 3 50 (by decide) (by decide)).2.2.1 ⟨"pen", 0, 0, 0⟩⟩

/-- A submitted numeric field after the zod preprocess step
`(val) => Number(val)`: none models NaN (a non-numeric input). -/
def positiveNumber (v : Option Int) : Bool :=
  match v with
  | none => false
  | some x => decide (0 < x)

/-- One line item of the AddExpense form as submitted, before validation
(itemSchema): name plus the three preprocessed numeric fields. -/
structure ItemInput where
  item_name : String
  unit : Option Int
  price_per_unit : Option Int
  total : Option Int
deriving DecidableEq

/-- The AddExpense itemSchema: item_name nonempty, and unit,
price_per_unit and total each a number that is strictly positive. -/
def itemSchemaAccepts (i : ItemInput) : Bool :=
  decide (1 ≤ i.item_name.length)
    && positiveNumber i.unit
    && positiveNumber i.price_per_unit
    && positiveNumber i.total

/-- The AddSale formSchema fields relevant to monetary validation:
amount positive, payment_type a nonempty selection. -/
structure SaleInput where
  amount : Option Int
  payment_type : String
deriving DecidableEq

def saleSchemaAccepts (s : SaleInput) : Bool :=
  positiveNumber s.amount && decide (1 ≤ s.payment_type.length)

/-- `form.handleSubmit(onSubmit)`: the persisting handler runs only when
the resolver accepted the values, so a rejected record is never persisted. -/
def submitItem (i : ItemInput) : Option ItemInput :=
  if itemSchemaAccepts i then some i else none

def submitSale (s : SaleInput) : Option SaleInput :=
  if saleSchemaAccepts s then some s else none

/-- C8: the add/edit validation accepts a record exactly when every
monetary field parses to a number that is strictly positive (zero,
negative and non-numeric values are all rejected and never coerced into
an accepted value), and a record is persisted exactly when it is
accepted. -/
theorem validation_positive_fields (i : ItemInput) (s : SaleInput) :
    (itemSchemaAccepts i = true ↔
      (1 ≤ i.item_name.length
        ∧ (∃ u, i.unit = some u ∧ 0 < u)
        ∧ (∃ p, i.price_per_unit = some p ∧ 0 < p)
        ∧ (∃ t, i.total = some t ∧ 0 < t)))
    ∧ (saleSchemaAccepts s = true ↔
        ((∃ a, s.amount = some a ∧ 0 < a) ∧ 1 ≤ s.payment_type.length))
    ∧ ((submitItem i).isSome = itemSchemaAccepts i)
    ∧ ((submitSale s).isSome = saleSchemaAccepts s)
    ∧ (i.unit = none ∨ i.unit = some 0 ∨ (∃ u, i.unit = some u ∧ u < 0) →
        itemSchemaAccepts i = false)
    ∧ (s.amount = none ∨ s.amount = some 0 ∨ (∃ a, s.amount = some a ∧ a < 0) →
        saleSchemaAccepts s = false) := by
  have hpos : ∀ v : Option Int, positiveNumber v = true ↔ ∃ x, v = some x ∧ 0 < x := by
    intro v
    cases v with
    | none => simp [positiveNumber]
    | some x => simp [positiveNumber]
  refine ⟨?_, ?_, ?_, ?_, ?_, ?_⟩
  · simp [itemSchemaAccepts, hpos, and_assoc]
  · simp [saleSchemaAccepts, hpos, and_assoc]
  · by_cases h : itemSchemaAccepts i = true
    · simp [submitItem, h]
    · simp [submitItem, h]
  · by_cases h : saleSchemaAccepts s = true
    · simp [submitSale, h]
    · simp [submitSale, h]
  · intro h
    rcases h with h | h | ⟨u, hu, hlt⟩
    · simp [itemSchemaAccepts, positiveNumber, h]
    · simp [itemSchemaAccepts, positiveNumber, h]
    · simp [itemSchemaAccepts, positiveNumber, hu]
      omega
  · intro h
    rcases h with h | h | ⟨a, ha, hlt⟩
    · simp [saleSchemaAccepts, positiveNumber, h]
    · simp [saleSchemaAccepts, positiveNumber, h]
    · simp [saleSchemaAccepts, positiveNumber, ha]
      omega

/-- Witness for C8: the spec's scenario item (unit 3, price 50, total 150)
is accepted, and a zero-amount sale is rejected and not persisted. -/
theorem validation_positive_fields_witness :
    itemSchemaAccepts ⟨"pen", some 3, some 50, some 150⟩ = true
    ∧ saleSchemaAccepts ⟨some 0, "Cash"⟩ = false
    ∧ submitSale ⟨some 0, "Cash"⟩ = none := by
  have h := validation_positive_fields ⟨"pen", some 3, some 50, some 150⟩ ⟨some 0, "Cash"⟩
  refine ⟨h.1.mpr ⟨by decide, ⟨3, rfl, by decide⟩, ⟨50, rfl, by decide⟩, ⟨150, rfl, by decide⟩⟩,
    h.2.2.2.2.2 (Or.inr (Or.inl rfl)), ?_⟩
  have h2 := h.2.2.2.1
  rw [h.2.2.2.2.2 (Or.inr (Or.inl rfl))] at h2
  cases hs : submitSale ⟨some 0, "Cash"⟩ with
  | none => rfl
  | some v => rw [hs] at h2; simp at h2

/-- Sale row as fetched for the dashboard chart: `select('date, amount')`.
Calendar days are integers. -/
structure ChartSale where
  date : Int
  amount : Int
deriving DecidableEq

/-- Expense row as fetched for the dashboard chart: `select('date, total')`. -/
structure ChartExpense where
  date : Int
  total : Int
deriving DecidableEq

/-- One entry of the `dailyMap`: a calendar day with its running totals. -/
structure DailyBucket where
  date : Int
  sales : Int
  expenses : Int
deriving DecidableEq

/-- The pre-populated scaffold
`for (let i = 0; i < 7; i++) dailyMap.set(subDays(today, 6 - i), { sales: 0, expenses: 0 })`:
seven contiguous days, oldest first, ending at today. -/
def initialDailyMap (today : Int) : List DailyBucket :=
  (List.range 7).map (fun (i : Nat) =>
    { date := today - 6 + (i : Int), sales := 0, expenses := 0 })

/-- `if (dailyMap.has(date)) dailyMap.get(date)!.sales += sale.amount`:
a sale is folded into the bucket whose day equals its date exactly, and
is dropped when no bucket matches. -/
def addSaleToMap (buckets : List DailyBucket) (s : ChartSale) : List DailyBucket :=
  buckets.map (fun b => if b.date = s.date then { b with sales := b.sales + s.amount } else b)

/-- The expense counterpart of the fold step. -/
def addExpenseToMap (buckets : List DailyBucket) (e : ChartExpense) : List DailyBucket :=
  buckets.map (fun b => if b.date = e.date then { b with expenses := b.expenses + e.total } else b)

/-- DashboardChart fetchChartData: build the seven-day scaffold, fold the
sale rows in, then the expense rows.  (The trailing display sort re-parses
already formatted labels and keeps the insertion order.) -/
def fetchChartData (salesData : List ChartSale) (expensesData : List ChartExpense)
    (today : Int) : List DailyBucket :=
  expensesData.foldl addExpenseToMap (salesData.foldl addSaleToMap (initialDailyMap today))

/-- Total sale amount recorded on one calendar day. -/
def salesOnDay (d : Int) (salesData : List ChartSale) : Int :=
  ((salesData.filter (fun s => s.date == d)).map (fun s => s.amount)).sum

/-- Total expense amount recorded on one calendar day. -/
def expensesOnDay (d : Int) (expensesData : List ChartExpense) : Int :=
  ((expensesData.filter (fun e => e.date == d)).map (fun e => e.total)).sum

theorem salesOnDay_cons (d : Int) (s : ChartSale) (rest : List ChartSale) :
    salesOnDay d (s :: rest)
      = (if s.date = d then s.amount else 0) + salesOnDay d rest := by
  by_cases hd : s.date = d
  · simp [salesOnDay, List.filter_cons, hd]
  · simp [salesOnDay, List.filter_cons, hd]

theorem expensesOnDay_cons (d : Int) (e : ChartExpense) (rest : List ChartExpense) :
    expensesOnDay d (e :: rest)
      = (if e.date = d then e.total else 0) + expensesOnDay d rest := by
  by_cases hd : e.date = d
  · simp [expensesOnDay, List.filter_cons, hd]
  · simp [expensesOnDay, List.filter_cons, hd]

theorem salesOnDay_nil (d : Int) : salesOnDay d [] = 0 := rfl

theorem expensesOnDay_nil (d : Int) : expensesOnDay d [] = 0 := rfl

theorem salesOnDay_of_absent (d : Int) (salesData : List ChartSale)
    (h : ∀ r ∈ salesData, r.date ≠ d) : salesOnDay d salesData = 0 := by
  have : salesData.filter (fun s => s.date == d) = [] := by
    refine List.filter_eq_nil_iff.mpr ?_
    intro a ha
    simp [h a ha]
  simp [salesOnDay, this]

theorem expensesOnDay_of_absent (d : Int) (expensesData : List ChartExpense)
    (h : ∀ r ∈ expensesData, r.date ≠ d) : expensesOnDay d expensesData = 0 := by
  have : expensesData.filter (fun e => e.date == d) = [] := by
    refine List.filter_eq_nil_iff.mpr ?_
    intro a ha
    simp [h a ha]
  simp [expensesOnDay, this]

theorem addSaleToMap_length (buckets : List DailyBucket) (s : ChartSale) :
    (addSaleToMap buckets s).length = buckets.length := by
  simp [addSaleToMap]

theorem addExpenseToMap_length (buckets : List DailyBucket) (e : ChartExpense) :
    (addExpenseToMap buckets e).length = buckets.length := by
  simp [addExpenseToMap]

theorem foldl_addSale_length (salesData : List ChartSale) :
    ∀ buckets : List DailyBucket,
      (salesData.foldl addSaleToMap buckets).length = buckets.length := by
  induction salesData with
  | nil => intro b; rfl
  | cons s rest ih =>
      intro b
      rw [List.foldl_cons, ih (addSaleToMap b s), addSaleToMap_length]

theorem foldl_addExpense_length (expensesData : List ChartExpense) :
    ∀ buckets : List DailyBucket,
      (expensesData.foldl addExpenseToMap buckets).length = buckets.length := by
  induction expensesData with
  | nil => intro b; rfl
  | cons e rest ih =>
      intro b
      rw [List.foldl_cons, ih (addExpenseToMap b e), addExpenseToMap_length]

/-- Folding the sale rows into a bucket list leaves dates and expense
totals untouched and adds exactly the matching-day sale amounts to each
bucket, position by position. -/
theorem foldl_addSale_get (salesData : List ChartSale) :
    ∀ (buckets : List DailyBucket) (i : Nat) (h : i < buckets.length)
      (h2 : i < (salesData.foldl addSaleToMap buckets).length),
      (salesData.foldl addSaleToMap buckets).get ⟨i, h2⟩ =
        { date := (buckets.get ⟨i, h⟩).date
          sales := (buckets.get ⟨i, h⟩).sales + salesOnDay (buckets.get ⟨i, h⟩).date salesData
          expenses := (buckets.get ⟨i, h⟩).expenses } := by
  induction salesData with
  | nil =>
      intro b i h h2
      simp [salesOnDay]
  | cons s rest ih =>
      intro b i h h2
      have hlen : i < (addSaleToMap b s).length := by
        rw [addSaleToMap_length]; exact h
      have h2' : i < (rest.foldl addSaleToMap (addSaleToMap b s)).length := by
        rw [foldl_addSale_length, addSaleToMap_length]; exact h
      have hstep : (addSaleToMap b s).get ⟨i, hlen⟩ =
          if (b.get ⟨i, h⟩).date = s.date
          then { b.get ⟨i, h⟩ with sales := (b.get ⟨i, h⟩).sales + s.amount }
          else b.get ⟨i, h⟩ := by
        simp [addSaleToMap]
      calc (List.foldl addSaleToMap b (s :: rest)).get ⟨i, h2⟩
          = (rest.foldl addSaleToMap (addSaleToMap b s)).get ⟨i, h2'⟩ := rfl
        _ = { date := ((addSaleToMap b s).get ⟨i, hlen⟩).date
              sales := ((addSaleToMap b s).get ⟨i, hlen⟩).sales
                + salesOnDay ((addSaleToMap b s).get ⟨i, hlen⟩).date rest
              expenses := ((addSaleToMap b s).get ⟨i, hlen⟩).expenses } :=
            ih (addSaleToMap b s) i hlen h2'
        _ = { date := (b.get ⟨i, h⟩).date
              sales := (b.get ⟨i, h⟩).sales + salesOnDay (b.get ⟨i, h⟩).date (s :: rest)
              expenses := (b.get ⟨i, h⟩).expenses } := by
            rw [hstep, salesOnDay_cons]
            by_cases hd : (b.get ⟨i, h⟩).date = s.date
            · rw [if_pos hd]
              simp only [DailyBucket.mk.injEq, true_and, and_true]
              rw [if_pos hd.symm]
              ring
            · rw [if_neg hd]
              simp only [DailyBucket.mk.injEq, true_and, and_true]
              rw [if_neg (fun hx => hd hx.symm)]
              ring

/-- The expense fold likewise only adds matching-day expense totals. -/
theorem foldl_addExpense_get (expensesData : List ChartExpense) :
    ∀ (buckets : List DailyBucket) (i : Nat) (h : i < buckets.length)
      (h2 : i < (expensesData.foldl addExpenseToMap buckets).length),
      (expensesData.foldl addExpenseToMap buckets).get ⟨i, h2⟩ =
        { date := (buckets.get ⟨i, h⟩).date
          sales := (buckets.get ⟨i, h⟩).sales
          expenses := (buckets.get ⟨i, h⟩).expenses
            + expensesOnDay (buckets.get ⟨i, h⟩).date expensesData } := by
  induction expensesData with
  | nil =>
      intro b i h h2
      simp [expensesOnDay]
  | cons e rest ih =>
      intro b i h h2
      have hlen : i < (addExpenseToMap b e).length := by
        rw [addExpenseToMap_length]; exact h
      have h2' : i < (rest.foldl addExpenseToMap (addExpenseToMap b e)).length := by
        rw [foldl_addExpense_length, addExpenseToMap_length]; exact h
      have hstep : (addExpenseToMap b e).get ⟨i, hlen⟩ =
          if (b.get ⟨i, h⟩).date = e.date
          then { b.get ⟨i, h⟩ with expenses := (b.get ⟨i, h⟩).expenses + e.total }
          else b.get ⟨i, h⟩ := by
        simp [addExpenseToMap]
      calc (List.foldl addExpenseToMap b (e :: rest)).get ⟨i, h2⟩
          = (rest.foldl addExpenseToMap (addExpenseToMap b e)).get ⟨i, h2'⟩ := rfl
        _ = { date := ((addExpenseToMap b e).get ⟨i, hlen⟩).date
              sales := ((addExpenseToMap b e).get ⟨i, hlen⟩).sales
              expenses := ((addExpenseToMap b e).get ⟨i, hlen⟩).expenses
                + expensesOnDay ((addExpenseToMap b e).get ⟨i, hlen⟩).date rest } :=
            ih (addExpenseToMap b e) i hlen h2'
        _ = { date := (b.get ⟨i, h⟩).date
              sales := (b.get ⟨i, h⟩).sales
              expenses := (b.get ⟨i, h⟩).expenses
                + expensesOnDay (b.get ⟨i, h⟩).date (e :: rest) } := by
            rw [hstep, expensesOnDay_cons]
            by_cases hd : (b.get ⟨i, h⟩).date = e.date
            · rw [if_pos hd]
              simp only [DailyBucket.mk.injEq, true_and, and_true]
              rw [if_pos hd.symm]
              ring
            · rw [if_neg hd]
              simp only [DailyBucket.mk.injEq, true_and, and_true]
              rw [if_neg (fun hx => hd hx.symm)]
              ring

theorem initialDailyMap_length (today : Int) : (initialDailyMap today).length = 7 := by
  rw [initialDailyMap, List.length_map, List.length_range]

theorem initialDailyMap_get (today : Int) (i : Nat)
    (h : i < (initialDailyMap today).length) :
    (initialDailyMap today).get ⟨i, h⟩
      = { date := today - 6 + i, sales := 0, expenses := 0 } := by
  simp only [initialDailyMap, List.get_eq_getElem, List.getElem_map, List.getElem_range]

theorem fetchChartData_length (salesData : List ChartSale)
    (expensesData : List ChartExpense) (today : Int) :
    (fetchChartData salesData expensesData today).length = 7 := by
  rw [fetchChartData, foldl_addExpense_length, foldl_addSale_length,
    initialDailyMap_length]

/-- Master characterization: bucket i of the chart holds day
today - 6 + i together with the exact-day sale and expense totals. -/
theorem fetchChartData_get (salesData : List ChartSale)
    (expensesData : List ChartExpense) (today : Int) (i : Nat)
    (h : i < (fetchChartData salesData expensesData today).length) :
    (fetchChartData salesData expensesData today).get ⟨i, h⟩
      = { date := today - 6 + i
          sales := salesOnDay (today - 6 + i) salesData
          expenses := expensesOnDay (today - 6 + i) expensesData } := by
  have h7 : i < 7 := by
    rw [← fetchChartData_length salesData expensesData today]; exact h
  have h0 : i < (initialDailyMap today).length := by
    rw [initialDailyMap_length]; exact h7
  have h1 : i < (salesData.foldl addSaleToMap (initialDailyMap today)).length := by
    rw [foldl_addSale_length, initialDailyMap_length]; exact h7
  have hmid : (salesData.foldl addSaleToMap (initialDailyMap today)).get ⟨i, h1⟩
      = { date := today - 6 + i
          sales := salesOnDay (today - 6 + i) salesData
          expenses := 0 } := by
    rw [foldl_addSale_get salesData (initialDailyMap today) i h0 h1,
      initialDailyMap_get]
    simp
  calc (fetchChartData salesData expensesData today).get ⟨i, h⟩
      = (expensesData.foldl addExpenseToMap
          (salesData.foldl addSaleToMap (initialDailyMap today))).get ⟨i, h⟩ := rfl
    _ = { date := today - 6 + i
          sales := salesOnDay (today - 6 + i) salesData
          expenses := expensesOnDay (today - 6 + i) expensesData } := by
        rw [foldl_addExpense_get expensesData _ i h1 h, hmid]
        simp

/-- C3: the chart always produces exactly 7 buckets, one per contiguous
calendar day ending at the reference day inclusive; a day with no matching
record keeps totals 0; records are matched to a bucket only by exact
calendar-date equality; and a record dated outside the 7-day window is
silently dropped from every bucket. -/
theorem chart_buckets_window (salesData : List ChartSale)
    (expensesData : List ChartExpense) (today : Int) :
    (fetchChartData salesData expensesData today).length = 7
    ∧ (∀ (i : Nat) (h : i < (fetchChartData salesData expensesData today).length),
        ((fetchChartData salesData expensesData today).get ⟨i, h⟩).date = today - 6 + i)
    ∧ (∀ b ∈ fetchChartData salesData expensesData today,
        ((∀ r ∈ salesData, r.date ≠ b.date) → b.sales = 0)
        ∧ ((∀ r ∈ expensesData, r.date ≠ b.date) → b.expenses = 0))
    ∧ (∀ s : ChartSale, s.date < today - 6 ∨ today < s.date →
        fetchChartData (s :: salesData) expensesData today
          = fetchChartData salesData expensesData today)
    ∧ (∀ e : ChartExpense, e.date < today - 6 ∨ today < e.date →
        fetchChartData salesData (e :: expensesData) today
          = fetchChartData salesData expensesData today) := by
  refine ⟨fetchChartData_length salesData expensesData today, ?_, ?_, ?_, ?_⟩
  · intro i h
    rw [fetchChartData_get]
  · intro b hb
    obtain ⟨⟨i, hi⟩, hget⟩ := List.mem_iff_get.mp hb
    rw [fetchChartData_get] at hget
    constructor
    · intro habs
      rw [← hget]
      exact salesOnDay_of_absent _ _ (fun r hr => by
        have := habs r hr
        rw [← hget] at this
        exact this)
    · intro habs
      rw [← hget]
      exact expensesOnDay_of_absent _ _ (fun r hr => by
        have := habs r hr
        rw [← hget] at this
        exact this)
  · intro s hs
    refine List.ext_get ?_ ?_
    · rw [fetchChartData_length, fetchChartData_length]
    · intro i hA hB
      rw [fetchChartData_get, fetchChartData_get]
      have h7 : i < 7 := by
        rw [← fetchChartData_length (s :: salesData) expensesData today]; exact hA
      have hne : s.date ≠ today - 6 + i := by omega
      rw [salesOnDay_cons, if_neg hne, zero_add]
  · intro e he
    refine List.ext_get ?_ ?_
    · rw [fetchChartData_length, fetchChartData_length]
    · intro i hA hB
      rw [fetchChartData_get, fetchChartData_get]
      have h7 : i < 7 := by
        rw [← fetchChartData_length salesData (e :: expensesData) today]; exact hA
      have hne : e.date ≠ today - 6 + i := by omega
      rw [expensesOnDay_cons, if_neg hne, zero_add]

/-- Witness for C3: with no records every bucket is zeroed, and a sale
dated far outside the window changes nothing. -/
theorem chart_buckets_window_witness :
    (fetchChartData [] [] 0).length = 7
    ∧ fetchChartData [⟨100, 5⟩] [] 0 = fetchChartData [] [] 0 :=
  ⟨(chart_buckets_window [] [] 0).1,
   (chart_buckets_window [] [] 0).2.2.2.1 ⟨100, 5⟩ (by decide)⟩

end GBFinance
